import Mathlib

/-!
Verification of the galaxy-webgpu simulation core against its specification.

The development shallowly embeds the TypeScript/WGSL sources:
  * `src/utils.ts` — `roundUp`, `createSphereMesh`, `hasCameraChangedPositions`
  * `src/render.ts` — packed model-matrix buffer layout and the per-frame
    transform-packing loop (angle accumulators, cumulative translations)
  * `src/shaders/scattered-points.wgsl` — the `compute_collision` kernel
  * `src/collision.ts` / `src/planet.ts` — `parseResultsBuffer`
  * `src/observer.ts` — the publish/subscribe `Observer`
  * `src/planet.ts` — the `planetsBuffers` store and `createPlanets`

JavaScript numbers are modelled as exact rationals `ℚ` (the claims under
study concern control flow and integer index arithmetic, not rounding),
machine integers as `Nat`/`Int` with explicit wrapping where relevant, and
GPU resources by the integer skeleton of the data written to them.
-/

namespace GalaxyWebgpu

/-! ## roundUp and the packed model-matrix buffer layout (src/render.ts) -/

/-- Embedding of `roundUp` from `src/utils.ts`:
`Math.ceil(size / alignment) * alignment`.  For natural `size` and positive
`alignment`, `Math.ceil(size / alignment)` is exactly
`(size + alignment - 1) / alignment` in truncating natural division
(see `roundUp_eq_ceil` below). -/
def roundUp (size alignment : Nat) : Nat :=
  ((size + alignment - 1) / alignment) * alignment

/-- Sanity check: for a positive alignment, `roundUp` agrees with the
real-valued `Math.ceil(size / alignment) * alignment` of the source. -/
theorem roundUp_eq_ceil (size alignment : Nat) (h : 0 < alignment) :
    (roundUp size alignment : ℤ) = ⌈(size : ℚ) / (alignment : ℚ)⌉ * alignment := by
  have ha : (0 : ℚ) < (alignment : ℚ) := by exact_mod_cast h
  have hq := Nat.div_add_mod (size + alignment - 1) alignment
  set q := (size + alignment - 1) / alignment with hqdef
  set r := (size + alignment - 1) % alignment with hrdef
  have hr : r < alignment := Nat.mod_lt _ h
  have hceil : ⌈(size : ℚ) / (alignment : ℚ)⌉ = (q : ℤ) := by
    rw [Int.ceil_eq_iff]
    constructor
    · rw [lt_div_iff₀ ha]
      have hnat : alignment * q + 1 ≤ size + alignment := by omega
      have h1 : (alignment : ℚ) * q + 1 ≤ (size : ℚ) + alignment := by
        exact_mod_cast hnat
      push_cast
      nlinarith
    · rw [div_le_iff₀ ha]
      have hnat : size ≤ alignment * q := by omega
      have h1 : (size : ℚ) ≤ (alignment : ℚ) * q := by exact_mod_cast hnat
      push_cast
      linarith
  rw [hceil]
  unfold roundUp
  push_cast [← hqdef]
  ring

/-- Constant `MAT4X4_BYTE_LENGTH` from `src/constants.ts`:
`4 * 4 * Float32Array.BYTES_PER_ELEMENT` with `BYTES_PER_ELEMENT = 4`. -/
def MAT4X4_BYTE_LENGTH : Nat := 4 * 4 * 4

/-- The aligned per-planet stride from `src/render.ts` lines 38-42:
`modelMatrixUniformBufferSize = roundUp(MAT4X4_BYTE_LENGTH, minUniformBufferOffsetAlignment)`.
The device limit `minUniformBufferOffsetAlignment` is the parameter `alignment`. -/
def modelMatrixUniformBufferSize (alignment : Nat) : Nat :=
  roundUp MAT4X4_BYTE_LENGTH alignment

/-- Byte size of the packed model-matrix uniform buffer created in
`src/render.ts` line 196: `size: modelMatrixUniformBufferSize * planetsCount`. -/
def packedBufferByteSize (planetsCount alignment : Nat) : Nat :=
  modelMatrixUniformBufferSize alignment * planetsCount

/-- Float32 element offset at which planet `i`'s matrix is written into
`allModelMatrices` (`src/render.ts` line 189):
`i * (modelMatrixUniformBufferSize / Float32Array.BYTES_PER_ELEMENT)`.
Division is JavaScript real division; it is exact whenever
`4 ∣ modelMatrixUniformBufferSize alignment`, which the layout theorem assumes
(device alignments are powers of two). -/
def matrixWriteFloatOffset (i alignment : Nat) : Nat :=
  i * (modelMatrixUniformBufferSize alignment / 4)

/-- Byte offset of planet `i`'s matrix inside the packed buffer:
the float offset of `matrixWriteFloatOffset` times 4 bytes per float. -/
def matrixWriteByteOffset (i alignment : Nat) : Nat :=
  4 * matrixWriteFloatOffset i alignment

/-- Dynamic offset used when drawing planet `i`
(`src/render.ts` line 302: `const dynamicOffset = i * modelMatrixUniformBufferSize`). -/
def drawDynamicOffset (i alignment : Nat) : Nat :=
  i * modelMatrixUniformBufferSize alignment

/-! ## hasCameraChangedPositions (src/utils.ts lines 359-380) -/

/-- Embedding of `PointerEventsTransformations` from `src/utils.ts`;
numeric fields are modelled as exact rationals. -/
structure PointerEventsTransformations where
  rotationAngleX : ℚ
  rotationAngleY : ℚ
  scale : ℚ
  offsetX : ℚ
  offsetY : ℚ
deriving DecidableEq, Repr

/-- Embedding of `hasCameraChangedPositions` from `src/utils.ts` lines 359-380.
The source compares `rotationAngleX`, `rotationAngleY`, then `offsetX` twice
in a row, then `scale`; it never reads `offsetY`. -/
def hasCameraChangedPositions
    (currCameraInfo newCameraInfo : PointerEventsTransformations) : Bool :=
  if currCameraInfo.rotationAngleX ≠ newCameraInfo.rotationAngleX then true
  else if currCameraInfo.rotationAngleY ≠ newCameraInfo.rotationAngleY then true
  else if currCameraInfo.offsetX ≠ newCameraInfo.offsetX then true
  else if currCameraInfo.offsetX ≠ newCameraInfo.offsetX then true
  else if currCameraInfo.scale ≠ newCameraInfo.scale then true
  else false

/-- The frame loop's guard (`src/planet.ts` line 811): the view-projection
matrix is recomputed in a frame exactly when
`hasCameraChangedPositions(currentCameraConfigurations, pointerEvents)` holds. -/
def frameRecomputesViewProjection
    (currentCameraConfigurations pointerEvents : PointerEventsTransformations) : Bool :=
  hasCameraChangedPositions currentCameraConfigurations pointerEvents

/-! ## Sphere mesh generation (src/utils.ts lines 55-123) -/

/-- Result skeleton of `createSphereMesh`.  The source pushes, per vertex,
five floats (`radius·x, radius·y, radius·z, u, v`, the first three
transcendental); the skeleton records one `(lat, lon)` entry per emitted
vertex together with the exact integer index list. -/
structure SphereMesh where
  vertexGrid : List (Int × Int)
  indices : List Int
deriving DecidableEq, Repr

/-- Embedding of `createSphereMesh` from `src/utils.ts` lines 55-123.
Band counts are JavaScript numbers and may be non-positive, hence `Int`.
The vertex loop `for (lat = 0; lat <= latBands)` runs `(latBands+1).toNat`
times (zero times when `latBands < 0`); the index loop
`for (lat = 0; lat < latBands)` runs `latBands.toNat` times.  Per quad the
source pushes `first, second, first+1` then `second, second+1, first+1` with
`first = lat * (longBands + 1) + lon` and `second = first + (longBands + 1)`.
The function performs no validation of its inputs and always returns. -/
def createSphereMesh (radius : ℚ) (latBands longBands : Int) : SphereMesh :=
  let moveVerticallyToNextLatitudeBand : Int := longBands + 1
  { vertexGrid :=
      (List.range (latBands + 1).toNat).flatMap (fun lat =>
        (List.range (longBands + 1).toNat).map (fun lon : Nat => ((lat : Int), (lon : Int))))
    indices :=
      (List.range latBands.toNat).flatMap (fun lat =>
        (List.range longBands.toNat).flatMap (fun lon =>
          let first : Int := (lat : Int) * moveVerticallyToNextLatitudeBand + (lon : Int)
          let second : Int := first + moveVerticallyToNextLatitudeBand
          [first, second, first + 1, second, second + 1, first + 1])) }

/-! ## Claim theorems: buffer layout (C2) and camera change detection (C10) -/

/-- C2: for every body count `n` and device minimum uniform-buffer offset
alignment `A` (positive, with the aligned stride a multiple of the 4-byte
float size, as holds for every power-of-two device alignment), the packed
model-matrix buffer built by `setModelMatrixUniformBuffer` has byte size
exactly `n * roundUp(64, A)`, body `i`'s matrix is written at byte offset
`i * roundUp(64, A)`, and the same offset is the dynamic offset used when
drawing body `i`. -/
theorem packedBuffer_layout (planetsCount alignment i : Nat)
    (halign : 0 < alignment) (hdvd : 4 ∣ roundUp 64 alignment) :
    packedBufferByteSize planetsCount alignment = planetsCount * roundUp 64 alignment ∧
    matrixWriteByteOffset i alignment = i * roundUp 64 alignment ∧
    drawDynamicOffset i alignment = i * roundUp 64 alignment := by
  have hMAT : MAT4X4_BYTE_LENGTH = 64 := rfl
  refine ⟨?_, ?_, ?_⟩
  · unfold packedBufferByteSize modelMatrixUniformBufferSize
    rw [hMAT, Nat.mul_comm]
  · obtain ⟨c, hc⟩ := hdvd
    unfold matrixWriteByteOffset matrixWriteFloatOffset modelMatrixUniformBufferSize
    rw [hMAT, hc, Nat.mul_div_cancel_left c (by norm_num)]
    ring
  · unfold drawDynamicOffset modelMatrixUniformBufferSize
    rw [hMAT]

/-- Witness for `packedBuffer_layout` at body count 3, device alignment 256,
body index 2. -/
theorem packedBuffer_layout_witness :
    0 < 256 ∧ 4 ∣ roundUp 64 256 ∧
    (packedBufferByteSize 3 256 = 3 * roundUp 64 256 ∧
     matrixWriteByteOffset 2 256 = 2 * roundUp 64 256 ∧
     drawDynamicOffset 2 256 = 2 * roundUp 64 256) :=
  ⟨by decide, by decide, packedBuffer_layout 3 256 2 (by decide) (by decide)⟩

/-- C10: for any two camera states that agree on `rotationAngleX`,
`rotationAngleY`, `scale`, and `offsetX` but possibly differ in `offsetY`,
`hasCameraChangedPositions` returns `false` (the source compares `offsetX`
twice and never `offsetY`), so a change to `offsetY` alone never triggers
recomputation of the view-projection matrix in the frame loop. -/
theorem hasCameraChangedPositions_ignores_offsetY
    (currCameraInfo newCameraInfo : PointerEventsTransformations)
    (h1 : currCameraInfo.rotationAngleX = newCameraInfo.rotationAngleX)
    (h2 : currCameraInfo.rotationAngleY = newCameraInfo.rotationAngleY)
    (h3 : currCameraInfo.scale = newCameraInfo.scale)
    (h4 : currCameraInfo.offsetX = newCameraInfo.offsetX) :
    hasCameraChangedPositions currCameraInfo newCameraInfo = false ∧
    frameRecomputesViewProjection currCameraInfo newCameraInfo = false := by
  have h : hasCameraChangedPositions currCameraInfo newCameraInfo = false := by
    unfold hasCameraChangedPositions
    simp [h1, h2, h3, h4]
  exact ⟨h, h⟩

/-- Witness for `hasCameraChangedPositions_ignores_offsetY` on two states that
agree on the four compared fields and differ only in `offsetY` (3 versus 7). -/
theorem hasCameraChangedPositions_ignores_offsetY_witness :
    (PointerEventsTransformations.mk 1 2 5 4 3).rotationAngleX
        = (PointerEventsTransformations.mk 1 2 5 4 7).rotationAngleX ∧
    (PointerEventsTransformations.mk 1 2 5 4 3).offsetY
        ≠ (PointerEventsTransformations.mk 1 2 5 4 7).offsetY ∧
    hasCameraChangedPositions (PointerEventsTransformations.mk 1 2 5 4 3)
        (PointerEventsTransformations.mk 1 2 5 4 7) = false ∧
    frameRecomputesViewProjection (PointerEventsTransformations.mk 1 2 5 4 3)
        (PointerEventsTransformations.mk 1 2 5 4 7) = false := by
  refine ⟨by decide, by decide, ?_⟩
  exact hasCameraChangedPositions_ignores_offsetY _ _ (by decide) (by decide)
    (by decide) (by decide)

/-! ## Claim theorems: sphere mesh (C3, C6) -/

/-- Helper: the length of a `flatMap` over `List.range` whose blocks all have
the same length `c` is `n * c`. -/
theorem length_flatMap_range_const {β : Type} (n c : Nat) (f : Nat → List β)
    (h : ∀ a, (f a).length = c) : ((List.range n).flatMap f).length = n * c := by
  rw [List.length_flatMap]
  have hmap : List.map (List.length ∘ f) (List.range n)
      = List.map (fun _ => c) (List.range n) :=
    List.map_congr_left (fun a _ => h a)
  rw [hmap]
  simp [List.map_const', List.sum_replicate, smul_eq_mul]

/-- C3: for all `latBands ≥ 2` and `longBands ≥ 2`,
`createSphereMesh(radius, latBands, longBands)` returns an index list of
length exactly `latBands * longBands * 6` in which every index is strictly
less than the vertex count `(latBands+1) * (longBands+1)`. -/
theorem createSphereMesh_indices_spec (radius : ℚ) (latBands longBands : Int)
    (hlat : 2 ≤ latBands) (hlong : 2 ≤ longBands) :
    ((createSphereMesh radius latBands longBands).indices.length : Int)
        = latBands * longBands * 6 ∧
    ((createSphereMesh radius latBands longBands).vertexGrid.length : Int)
        = (latBands + 1) * (longBands + 1) ∧
    ∀ idx ∈ (createSphereMesh radius latBands longBands).indices,
      idx < (latBands + 1) * (longBands + 1) := by
  have hlat0 : (0 : Int) ≤ latBands := by omega
  have hlong0 : (0 : Int) ≤ longBands := by omega
  refine ⟨?_, ?_, ?_⟩
  · have h1 : (createSphereMesh radius latBands longBands).indices.length
        = latBands.toNat * (longBands.toNat * 6) :=
      length_flatMap_range_const _ _ _ (fun lat =>
        length_flatMap_range_const _ _ _ (fun lon => rfl))
    rw [h1]
    push_cast [Int.toNat_of_nonneg hlat0, Int.toNat_of_nonneg hlong0]
    ring
  · have h2 : (createSphereMesh radius latBands longBands).vertexGrid.length
        = (latBands + 1).toNat * (longBands + 1).toNat :=
      length_flatMap_range_const _ _ _ (fun lat => by
        rw [List.length_map, List.length_range])
    rw [h2]
    push_cast [Int.toNat_of_nonneg (by omega : (0:Int) ≤ latBands + 1),
      Int.toNat_of_nonneg (by omega : (0:Int) ≤ longBands + 1)]
    ring
  · intro idx hidx
    unfold createSphereMesh at hidx
    simp only [List.mem_flatMap, List.mem_range] at hidx
    obtain ⟨lat, hlatmem, lon, hlonmem, hmem⟩ := hidx
    have hlat' : (lat : Int) < latBands := by omega
    have hlon' : (lon : Int) < longBands := by omega
    simp only [List.mem_cons, List.not_mem_nil, or_false] at hmem
    have hkey : (0 : Int) ≤ (latBands - 1 - lat) * (longBands + 1) :=
      mul_nonneg (by omega) (by omega)
    rcases hmem with rfl | rfl | rfl | rfl | rfl | rfl <;> nlinarith

/-- Witness for `createSphereMesh_indices_spec` at radius 1 with
`latBands = longBands = 2`. -/
theorem createSphereMesh_indices_spec_witness :
    (2 : Int) ≤ 2 ∧
    (((createSphereMesh 1 2 2).indices.length : Int) = 2 * 2 * 6 ∧
     ((createSphereMesh 1 2 2).vertexGrid.length : Int) = (2 + 1) * (2 + 1) ∧
     ∀ idx ∈ (createSphereMesh 1 2 2).indices, idx < (2 + 1) * (2 + 1)) :=
  ⟨by decide, createSphereMesh_indices_spec 1 2 2 (by decide) (by decide)⟩

/-- C6 counterexample: `createSphereMesh` performs no validation whatsoever.
With `latBands = -1` (and `longBands = 5`) neither loop body ever executes and
the call returns a normal, fully defined (empty) mesh value instead of
failing: there is no rejection path anywhere in the function. -/
theorem createSphereMesh_no_rejection_counterexample :
    createSphereMesh 1 (-1) 5 = { vertexGrid := [], indices := [] } := by
  decide

/-- C6 amended: sphere mesh generation does not reject non-positive band
counts; a call with `latBands ≤ 0` or `longBands ≤ 0` returns normally with a
degenerate mesh whose index list is empty (and, as the embedding is a total
function, no call fails for any integer band counts). -/
theorem createSphereMesh_nonpositive_bands (radius : ℚ) (latBands longBands : Int)
    (h : latBands ≤ 0 ∨ longBands ≤ 0) :
    (createSphereMesh radius latBands longBands).indices = [] := by
  unfold createSphereMesh
  rcases h with h | h
  · have : latBands.toNat = 0 := by omega
    simp [this]
  · have : longBands.toNat = 0 := by omega
    simp [this]

/-- Witness for `createSphereMesh_nonpositive_bands` at `latBands = 0`,
`longBands = 5`. -/
theorem createSphereMesh_nonpositive_bands_witness :
    ((0 : Int) ≤ 0 ∨ (5 : Int) ≤ 0) ∧ (createSphereMesh 1 0 5).indices = [] :=
  ⟨Or.inl (by decide), createSphereMesh_nonpositive_bands 1 0 5 (Or.inl (by decide))⟩

/-! ## Collision compute kernel (src/shaders/scattered-points.wgsl lines 218-261) -/

/-- Embedding of the WGSL `CenterAndRadius` struct; `f32` fields are modelled
as exact rationals. -/
structure CenterAndRadius where
  x : ℚ
  y : ℚ
  z : ℚ
  r : ℚ
deriving DecidableEq, Repr

/-- Embedding of `check_collision` (wgsl lines 218-240): the squared distance
between the two centers compared against the square of the sum of the radii,
`distanceCAandCBSquared <= sumOfRadius * sumOfRadius`. -/
def check_collision (a b : CenterAndRadius) : Bool :=
  let dx := b.x - a.x
  let dy := b.y - a.y
  let dz := b.z - a.z
  let distanceCAandCBSquared := dx * dx + dy * dy + dz * dz
  let sumOfRadius := a.r + b.r
  decide (distanceCAandCBSquared ≤ sumOfRadius * sumOfRadius)

/-- Default storage value, used only for out-of-range `getD` accesses; the
kernel's guards keep every real access in bounds. -/
def zeroCenter : CenterAndRadius := ⟨0, 0, 0, 0⟩

/-- Pairs written by the `compute_collision` invocation with
`global_invocation_id.x = gid` (wgsl lines 242-261): after the
`currentIdx >= arrayLength` early return, the loop runs `i` from `gid + 1` to
`arrayLength - 1` and emits the pair `(gid, i)` whenever `check_collision`
holds.  The atomic counter only chooses each written pair's slot in the
output array; the collection of written pairs is what is modelled. -/
def compute_collision_thread (planets : List CenterAndRadius) (gid : Nat) :
    List (Nat × Nat) :=
  if planets.length ≤ gid then []
  else
    (List.range' (gid + 1) (planets.length - (gid + 1))).filterMap (fun i =>
      if check_collision (planets.getD gid zeroCenter) (planets.getD i zeroCenter)
      then some (gid, i) else none)

/-- Thread count of one dispatch (`src/collision.ts` line 163):
`Math.ceil(numberOfPlanets / WORKGROUP_SIZE)` workgroups of
`WORKGROUP_SIZE = 64` threads each, i.e. `roundUp numberOfPlanets 64`. -/
def dispatchedThreadCount (numberOfPlanets : Nat) : Nat :=
  roundUp numberOfPlanets 64

/-- All pairs written by one dispatch of `compute_collision` over the
candidate record list. -/
def compute_collision_pairs (planets : List CenterAndRadius) : List (Nat × Nat) :=
  (List.range (dispatchedThreadCount planets.length)).flatMap
    (compute_collision_thread planets)

/-- Helper: a dispatch launches at least one thread per candidate. -/
theorem le_dispatchedThreadCount (n : Nat) : n ≤ dispatchedThreadCount n := by
  unfold dispatchedThreadCount roundUp
  have h1 := Nat.div_add_mod (n + 64 - 1) 64
  have h2 : (n + 64 - 1) % 64 < 64 := Nat.mod_lt _ (by norm_num)
  omega

/-- C1: a pair `(i, j)` is written by the `compute_collision` dispatch if and
only if `j > i`, `j` is a valid candidate index, and the squared Euclidean
distance between the two centers is at most the square of the sum of the two
radii; in particular no pair with `j ≤ i` is ever written. -/
theorem compute_collision_spec (planets : List CenterAndRadius) (i j : Nat) :
    (i, j) ∈ compute_collision_pairs planets ↔
      (i < j ∧ j < planets.length ∧
        ((planets.getD j zeroCenter).x - (planets.getD i zeroCenter).x) ^ 2
          + ((planets.getD j zeroCenter).y - (planets.getD i zeroCenter).y) ^ 2
          + ((planets.getD j zeroCenter).z - (planets.getD i zeroCenter).z) ^ 2
          ≤ ((planets.getD i zeroCenter).r + (planets.getD j zeroCenter).r) ^ 2) := by
  unfold compute_collision_pairs
  rw [List.mem_flatMap]
  constructor
  · rintro ⟨gid, hgid, hmem⟩
    unfold compute_collision_thread at hmem
    by_cases hlen : planets.length ≤ gid
    · simp [hlen] at hmem
    · rw [if_neg hlen, List.mem_filterMap] at hmem
      obtain ⟨jj, hjj, heq⟩ := hmem
      rw [List.mem_range'] at hjj
      obtain ⟨k, hk, hjk⟩ := hjj
      by_cases hc : check_collision (planets.getD gid zeroCenter)
          (planets.getD jj zeroCenter) = true
      · rw [if_pos hc] at heq
        simp only [Option.some.injEq, Prod.mk.injEq] at heq
        obtain ⟨rfl, rfl⟩ := heq
        unfold check_collision at hc
        simp only [decide_eq_true_eq] at hc
        refine ⟨by omega, by omega, ?_⟩
        nlinarith [hc]
      · rw [if_neg hc] at heq
        cases heq
  · rintro ⟨hij, hjlen, hle⟩
    have hidisp : i < dispatchedThreadCount planets.length := by
      have := le_dispatchedThreadCount planets.length
      omega
    refine ⟨i, List.mem_range.mpr hidisp, ?_⟩
    unfold compute_collision_thread
    rw [if_neg (by omega), List.mem_filterMap]
    refine ⟨j, ?_, ?_⟩
    · rw [List.mem_range']
      exact ⟨j - (i + 1), by omega, by omega⟩
    · have hc : check_collision (planets.getD i zeroCenter)
          (planets.getD j zeroCenter) = true := by
        unfold check_collision
        simp only [decide_eq_true_eq]
        nlinarith [hle]
      rw [if_pos hc]

/-! ## parseResultsBuffer (src/collision.ts lines 123-144, src/planet.ts lines 709-729) -/

/-- Embedding of `DataView.getUint32(offset, true)`: a little-endian 32-bit
read at byte offset `off` of the byte list (bytes are values below 256;
out-of-range reads never occur under the source's loop bound). -/
def getUint32LE (bytes : List Nat) (off : Nat) : Nat :=
  bytes.getD off 0 + 256 * bytes.getD (off + 1) 0
    + 65536 * bytes.getD (off + 2) 0 + 16777216 * bytes.getD (off + 3) 0

/-- Embedding of `parseResultsBuffer`: slice off the first 4 bytes (the
`count` header), then for `i` from 0 to `floor(byteLength / 8) - 1` read the
little-endian pair `(a, b)` at byte offset `8 * i` and push it onto the
result exactly when `a !== b`. -/
def parseResultsBuffer (arrayBuffer : List Nat) : List (Nat × Nat) :=
  let view := arrayBuffer.drop 4
  let structSize := 2 * 4
  (List.range (view.length / structSize)).foldl
    (fun collisions i =>
      let baseOffset := i * structSize
      let a := getUint32LE view baseOffset
      let b := getUint32LE view (baseOffset + 4)
      if a ≠ b then collisions ++ [(a, b)] else collisions)
    []

/-- The consecutive 8-byte `(a, b)` records of the readback buffer after the
4-byte count header, in buffer order (the claim's reading of the layout). -/
def resultRecords (arrayBuffer : List Nat) : List (Nat × Nat) :=
  (List.range ((arrayBuffer.drop 4).length / 8)).map (fun i =>
    (getUint32LE (arrayBuffer.drop 4) (8 * i),
     getUint32LE (arrayBuffer.drop 4) (8 * i + 4)))

/-- Helper: pushing-on-match folds are filtered maps. -/
theorem foldl_push_filter {α β : Type} [DecidableEq β] (g : α → β × β)
    (l : List α) (acc : List (β × β)) :
    l.foldl (fun c i => if (g i).1 ≠ (g i).2 then c ++ [g i] else c) acc
      = acc ++ (l.map g).filter (fun p => decide (p.1 ≠ p.2)) := by
  induction l generalizing acc with
  | nil => simp
  | cons hd tl ih =>
    simp only [List.foldl_cons, List.map_cons, List.filter_cons]
    by_cases h : (g hd).1 ≠ (g hd).2
    · rw [if_pos h, ih]
      simp [h]
    · rw [if_neg h, ih]
      simp [h]

/-- C5: `parseResultsBuffer` removes the first 4 bytes, interprets the
remainder as consecutive 8-byte records of two little-endian u32 values,
discards exactly the records with `a == b`, and returns the remaining records
in order; consequently a pair with `a == b` never appears in the returned
(and published) collision list. -/
theorem parseResultsBuffer_spec (arrayBuffer : List Nat) :
    parseResultsBuffer arrayBuffer
        = (resultRecords arrayBuffer).filter (fun p => decide (p.1 ≠ p.2)) ∧
    ∀ p ∈ parseResultsBuffer arrayBuffer, p.1 ≠ p.2 := by
  have hmain : parseResultsBuffer arrayBuffer
      = (resultRecords arrayBuffer).filter (fun p => decide (p.1 ≠ p.2)) := by
    unfold parseResultsBuffer resultRecords
    have h := foldl_push_filter
      (fun i => (getUint32LE (arrayBuffer.drop 4) (i * (2 * 4)),
        getUint32LE (arrayBuffer.drop 4) (i * (2 * 4) + 4)))
      (List.range ((arrayBuffer.drop 4).length / (2 * 4))) []
    simp only [List.nil_append] at h
    rw [h]
    norm_num [Nat.mul_comm]
  refine ⟨hmain, ?_⟩
  intro p hp
  rw [hmain, List.mem_filter] at hp
  simpa using hp.2

/-! ## Observer publish/subscribe (src/observer.ts lines 29-69) -/

/-- Embedding of the `Subscriber` record: a string id plus a callback.
Callbacks are opaque to the bus, so they are modelled by an arbitrary type
`κ`.  A topic's state is its `List (Subscriber κ)`; the `Map` of topics keyed
by name acts independently per topic (`subscriptions.get(topic) ?? []`
followed by `subscriptions.set(topic, ...)`), so the per-topic list is the
whole relevant state. -/
structure Subscriber (κ : Type) where
  id : String
  callback : κ
deriving DecidableEq, Repr

/-- Embedding of `Observer().subscribe` for one topic: if some current
subscriber has the same id, return unchanged; otherwise push (append) the
subscriber. -/
def observerSubscribe {κ : Type} (currentSubscribers : List (Subscriber κ))
    (subscriber : Subscriber κ) : List (Subscriber κ) :=
  if (currentSubscribers.find? (fun item => item.id == subscriber.id)).isSome
  then currentSubscribers
  else currentSubscribers ++ [subscriber]

/-- Embedding of `Observer().unsubscribe` for one topic: keep exactly the
entries whose id differs from the argument's id. -/
def observerUnsubscribe {κ : Type} (currentSubscribers : List (Subscriber κ))
    (subscriber : Subscriber κ) : List (Subscriber κ) :=
  currentSubscribers.filter (fun item => item.id ≠ subscriber.id)

/-- Embedding of `Observer().notify` for one topic: the sequence of callbacks
invoked, which is the current subscriber list traversed in order
(`currentSubscribers.forEach(s => s.callback(value))`). -/
def observerNotifyInvocations {κ : Type} (currentSubscribers : List (Subscriber κ)) :
    List κ :=
  currentSubscribers.map (fun subscriber => subscriber.callback)

/-- Helper: a subscribe on a list already containing the id is the identity. -/
theorem observerSubscribe_of_mem_id {κ : Type} (subs : List (Subscriber κ))
    (s : Subscriber κ)
    (h : (subs.find? (fun item => item.id == s.id)).isSome) :
    observerSubscribe subs s = subs := by
  unfold observerSubscribe
  rw [if_pos h]

/-- Helper: folding `subscribe` over pairwise-distinct fresh subscribers
appends them all in order. -/
theorem foldl_observerSubscribe_distinct {κ : Type} (ss : List (Subscriber κ)) :
    ∀ acc : List (Subscriber κ),
      ss.Pairwise (fun a b => a.id ≠ b.id) →
      (∀ s ∈ ss, ∀ t ∈ acc, t.id ≠ s.id) →
      ss.foldl observerSubscribe acc = acc ++ ss := by
  induction ss with
  | nil => intro acc _ _; simp
  | cons hd tl ih =>
    intro acc hpw hfresh
    have hnotin : (acc.find? (fun item => item.id == hd.id)).isSome = false := by
      rw [Bool.eq_false_iff]
      intro hsome
      obtain ⟨t, ht⟩ := Option.isSome_iff_exists.mp hsome
      have htmem := List.mem_of_find?_eq_some ht
      have htid := List.find?_some ht
      exact hfresh hd (by simp) t htmem (by simpa using htid)
    have hstep : observerSubscribe acc hd = acc ++ [hd] := by
      unfold observerSubscribe
      rw [hnotin]
      simp
    rw [List.foldl_cons, hstep, ih (acc ++ [hd]) (List.Pairwise.of_cons hpw)]
    · simp
    · intro s hs t ht
      rcases List.mem_append.mp ht with h | h
      · exact hfresh s (by simp [hs]) t h
      · have : t = hd := by simpa using h
        subst this
        exact (List.pairwise_cons.mp hpw).1 s hs


/-- C8: on the ParameterBus, subscribing a subscriber id to a topic a second
time leaves the subscriber list identical to subscribing it once;
unsubscribing is idempotent per (topic, subscriber id); and notify
synchronously invokes the callbacks of exactly the topic's current
subscribers in the order in which they subscribed (folding `subscribe` over
fresh distinct-id subscribers yields exactly that list, and notify traverses
it in order). -/
theorem observer_pubsub_spec {κ : Type} [DecidableEq κ]
    (subs : List (Subscriber κ)) (s t : Subscriber κ)
    (ss : List (Subscriber κ)) (hid : t.id = s.id)
    (hpw : ss.Pairwise (fun a b => a.id ≠ b.id)) :
    observerSubscribe (observerSubscribe subs s) t = observerSubscribe subs s ∧
    observerUnsubscribe (observerUnsubscribe subs s) t = observerUnsubscribe subs s ∧
    observerNotifyInvocations (ss.foldl observerSubscribe [])
        = ss.map (fun subscriber => subscriber.callback) := by
  refine ⟨?_, ?_, ?_⟩
  · apply observerSubscribe_of_mem_id
    unfold observerSubscribe
    by_cases h : (subs.find? (fun item => item.id == s.id)).isSome
    · rw [if_pos h]
      rw [hid]
      exact h
    · rw [if_neg h]
      rw [List.find?_append]
      have h2 : ([s].find? (fun item => item.id == t.id)).isSome := by
        simp [hid]
      rcases hfind : subs.find? (fun item => item.id == t.id) with _ | u
      · simpa [hfind] using h2
      · simp [hfind]
  · unfold observerUnsubscribe
    rw [List.filter_filter]
    apply List.filter_congr
    intro x _
    simp [hid]
  · rw [foldl_observerSubscribe_distinct ss [] hpw (by simp)]
    unfold observerNotifyInvocations
    simp

/-- Witness for `observer_pubsub_spec`: a two-subscriber topic over `Nat`
callbacks, a duplicate id, and a fresh distinct-id subscription sequence. -/
theorem observer_pubsub_spec_witness :
    (Subscriber.mk "b" 9).id = (Subscriber.mk "b" 2).id ∧
    ([Subscriber.mk "x" (7 : Nat), Subscriber.mk "y" 8].Pairwise
      (fun a b => a.id ≠ b.id)) ∧
    (observerSubscribe (observerSubscribe [Subscriber.mk "a" (1 : Nat)]
          (Subscriber.mk "b" 2)) (Subscriber.mk "b" 9)
        = observerSubscribe [Subscriber.mk "a" 1] (Subscriber.mk "b" 2) ∧
     observerUnsubscribe (observerUnsubscribe [Subscriber.mk "a" (1 : Nat)]
          (Subscriber.mk "b" 2)) (Subscriber.mk "b" 9)
        = observerUnsubscribe [Subscriber.mk "a" 1] (Subscriber.mk "b" 2) ∧
     observerNotifyInvocations
          ([Subscriber.mk "x" (7 : Nat), Subscriber.mk "y" 8].foldl
            observerSubscribe [])
        = [Subscriber.mk "x" (7 : Nat), Subscriber.mk "y" 8].map
            (fun subscriber => subscriber.callback)) := by
  refine ⟨by decide, by decide, ?_⟩
  exact observer_pubsub_spec [Subscriber.mk "a" 1] (Subscriber.mk "b" 2)
    (Subscriber.mk "b" 9) [Subscriber.mk "x" 7, Subscriber.mk "y" 8]
    (by decide) (by decide)

/-! ## Per-frame transform packing (src/render.ts lines 138-206) -/

/-- State threaded through one run of the packing loop of
`setModelMatrixUniformBuffer`: the per-slot angle accumulators
(`lastAngleForPlanet`, a record whose missing entries read as 0 via `?? 0`),
the running `previousTranslation` vector, and the list of translation vectors
passed to `getModelMatrix` for slots `0, 1, ...` of this call, in order. -/
structure PackState where
  lastAngleForPlanet : Nat → Nat
  previousTranslation : ℚ × ℚ × ℚ
  translations : List (ℚ × ℚ × ℚ)

/-- One iteration of the packing loop (`src/render.ts` lines 153-191) for
body `i`: advance the slot's angle accumulator by 1 modulo
`FULL_CIRCUMFERENCE = 360`, evaluate the ellipse position at the new angle,
add it into the running translation (`vec3.add(EMPTY_VECTOR,
previousTranslation, [x, y, z])`), and record the result as body `i`'s
`modelTranslation`.  The parameter `coord` stands for
`calculateXYZEllipseCoordinates` at the call's fixed
`ellipse_a`/`eccentricity` pair: the source evaluates it only at integer
degree angles, and its transcendental value plays no role in the claim,
which is about the angle stepping and the cumulative accumulation. -/
def packStep (coord : Nat → ℚ × ℚ × ℚ) (state : PackState) (i : Nat) : PackState :=
  let angle := (state.lastAngleForPlanet i + 1) % 360
  let p := coord angle
  let newTranslation := state.previousTranslation + p
  { lastAngleForPlanet := fun j => if j = i then angle else state.lastAngleForPlanet j
    previousTranslation := newTranslation
    translations := state.translations ++ [newTranslation] }

/-- The packing loop of `setModelMatrixUniformBuffer`: iterate `packStep`
over bodies `0 .. planetsCount - 1`, starting from `previousTranslation =
[0, 0, 0]` and the current angle accumulators. -/
def packFrame (coord : Nat → ℚ × ℚ × ℚ) (planetsCount : Nat)
    (lastAngleForPlanet : Nat → Nat) : PackState :=
  (List.range planetsCount).foldl (packStep coord)
    ⟨lastAngleForPlanet, (0, 0, 0), []⟩

/-- Helper: closed form of the packing loop, proved by induction on the body
count: every packed slot's accumulator advances by exactly 1 mod 360, and the
recorded translations are the prefix sums of the per-slot ellipse positions. -/
theorem packFrame_spec (coord : Nat → ℚ × ℚ × ℚ) (planetsCount : Nat)
    (angles : Nat → Nat) :
    (packFrame coord planetsCount angles).lastAngleForPlanet
        = (fun j => if j < planetsCount then (angles j + 1) % 360 else angles j) ∧
    (packFrame coord planetsCount angles).translations
        = (List.range planetsCount).map (fun i =>
            ((List.range (i + 1)).map (fun k => coord ((angles k + 1) % 360))).sum) ∧
    (packFrame coord planetsCount angles).previousTranslation
        = ((List.range planetsCount).map (fun k => coord ((angles k + 1) % 360))).sum := by
  induction planetsCount with
  | zero =>
    refine ⟨funext fun j => by simp [packFrame], by simp [packFrame], by simp [packFrame]⟩
  | succ n ih =>
    obtain ⟨ih1, ih2, ih3⟩ := ih
    have hstep : packFrame coord (n + 1) angles
        = packStep coord (packFrame coord n angles) n := by
      unfold packFrame
      rw [List.range_succ, List.foldl_append, List.foldl_cons, List.foldl_nil]
    have hangle : ((packFrame coord n angles).lastAngleForPlanet n + 1) % 360
        = (angles n + 1) % 360 := by
      rw [ih1]
      simp
    refine ⟨?_, ?_, ?_⟩
    · rw [hstep]
      unfold packStep
      funext j
      simp only [hangle]
      rw [ih1]
      by_cases hj : j = n
      · subst hj
        simp
      · by_cases hj2 : j < n
        · have h3 : j < n + 1 := by omega
          simp [hj, hj2, h3]
        · have h3 : ¬ j < n + 1 := by omega
          simp [hj, hj2, h3]
    · rw [hstep]
      unfold packStep
      simp only [hangle, ih2, ih3]
      simp [List.range_succ]
    · rw [hstep]
      unfold packStep
      simp only [hangle, ih3]
      simp [List.range_succ]

/-- C4: on every call that packs the frame transforms, each packed body `i`'s
angle accumulator is advanced by exactly 1 modulo 360 degrees, and body `i`'s
translation vector equals the running sum of the ellipse positions computed
for bodies `0` through `i` within that same call, so body positions chain
into a spiral rather than forming independent per-body orbits. -/
theorem packFrame_angle_step_and_cumulative (coord : Nat → ℚ × ℚ × ℚ)
    (planetsCount : Nat) (angles : Nat → Nat) (i : Nat) (h : i < planetsCount) :
    (packFrame coord planetsCount angles).lastAngleForPlanet i
        = (angles i + 1) % 360 ∧
    (packFrame coord planetsCount angles).translations.getD i 0
        = ((List.range (i + 1)).map (fun k => coord ((angles k + 1) % 360))).sum := by
  obtain ⟨h1, h2, _⟩ := packFrame_spec coord planetsCount angles
  constructor
  · rw [h1]
    simp [h]
  · rw [h2, List.getD_eq_getElem?_getD]
    simp [List.getElem?_map, List.getElem?_range, h]

/-- Witness for `packFrame_angle_step_and_cumulative`: three bodies, all
accumulators at 0, a coordinate function returning `(angle, 0, 1)`; slot 2's
translation is the sum of the three positions, `(3, 0, 3)`. -/
def spiralCoord (a : Nat) : ℚ × ℚ × ℚ := ((a : ℚ), 0, 1)

theorem packFrame_angle_step_and_cumulative_witness :
    2 < 3 ∧
    ((packFrame spiralCoord 3 (fun _ => 0)).lastAngleForPlanet 2
        = ((fun _ : Nat => 0) 2 + 1) % 360 ∧
     (packFrame spiralCoord 3 (fun _ => 0)).translations.getD 2 0
        = ((List.range (2 + 1)).map
            (fun k => spiralCoord (((fun _ : Nat => 0) k + 1) % 360))).sum) :=
  ⟨by decide, packFrame_angle_step_and_cumulative spiralCoord 3 (fun _ => 0) 2 (by decide)⟩

/-! ## Planet store: createPlanets (src/planet.ts lines 428-460) -/

/-- Skeleton of the module-level `planetsBuffers` array together with a
creation counter.  Each pushed `PlanetInfo` record (GPU vertex/index buffers,
randomized radius `Math.random() * 2 + 1`, texture) is abstracted by the
value the creation counter had when it was created, which identifies the
record: the claims under study concern record identity, retention and count,
not the random/transcendental contents. -/
structure PlanetStore where
  planetsBuffers : List Nat
  createdSoFar : Nat
deriving DecidableEq, Repr

/-- One iteration of the `createPlanets` loop (`src/planet.ts` lines
435-458) at index `i`: `if (i < planetsBuffers.length - 1) continue;` — the
comparison is on JavaScript numbers, so `length - 1` is `-1` for an empty
store, hence the `Int` comparison — otherwise create a planet record and
push it onto `planetsBuffers`. -/
def createPlanetsStep (store : PlanetStore) (i : Nat) : PlanetStore :=
  if (i : Int) < (store.planetsBuffers.length : Int) - 1 then store
  else ⟨store.planetsBuffers ++ [store.createdSoFar], store.createdSoFar + 1⟩

/-- The tail of the `createPlanets` loop: `k` remaining iterations starting
at loop index `i`. -/
def createPlanetsFrom (i : Nat) : Nat → PlanetStore → PlanetStore
  | 0, store => store
  | k + 1, store => createPlanetsFrom (i + 1) k (createPlanetsStep store i)

/-- Embedding of `createPlanets(numberOfPlanets)` (`src/planet.ts` lines
434-459): run the loop for `i = 0 .. numberOfPlanets - 1` over the current
store. -/
def createPlanets (numberOfPlanets : Nat) (store : PlanetStore) : PlanetStore :=
  createPlanetsFrom 0 numberOfPlanets store

/-- Helper: while the loop index stays strictly below `length - 1`, every
iteration takes the `continue` branch and the store is unchanged. -/
theorem createPlanetsFrom_skip (k : Nat) : ∀ (i : Nat) (store : PlanetStore),
    ((i + k : Nat) : Int) ≤ (store.planetsBuffers.length : Int) - 1 →
    createPlanetsFrom i k store = store := by
  induction k with
  | zero => intro i store _; rfl
  | succ k ih =>
    intro i store h
    have hcond : (i : Int) < (store.planetsBuffers.length : Int) - 1 := by
      push_cast at h
      omega
    show createPlanetsFrom (i + 1) k (createPlanetsStep store i) = store
    rw [createPlanetsStep, if_pos hcond]
    apply ih
    push_cast at h ⊢
    omega

/-- Helper: once the store length equals `i + 1` at loop index `i`, the
`continue` guard fails at every remaining index and each iteration pushes
exactly one record. -/
theorem createPlanetsFrom_push (k : Nat) : ∀ (i : Nat) (store : PlanetStore),
    store.planetsBuffers.length = i + 1 →
    (createPlanetsFrom i k store).planetsBuffers.length = i + k + 1 := by
  induction k with
  | zero => intro i store h; simpa using h
  | succ k ih =>
    intro i store h
    have hcond : ¬ ((i : Int) < (store.planetsBuffers.length : Int) - 1) := by
      rw [h]
      push_cast
      omega
    show (createPlanetsFrom (i + 1) k (createPlanetsStep store i)).planetsBuffers.length
        = i + (k + 1) + 1
    rw [createPlanetsStep, if_neg hcond]
    have := ih (i + 1) ⟨store.planetsBuffers ++ [store.createdSoFar], store.createdSoFar + 1⟩
      (by simp [h])
    omega

/-- Helper: splitting the loop. -/
theorem createPlanetsFrom_add (k1 : Nat) : ∀ (k2 i : Nat) (store : PlanetStore),
    createPlanetsFrom i (k1 + k2) store
      = createPlanetsFrom (i + k1) k2 (createPlanetsFrom i k1 store) := by
  induction k1 with
  | zero => intro k2 i store; simp [createPlanetsFrom]
  | succ k1 ih =>
    intro k2 i store
    have h1 : k1 + 1 + k2 = (k1 + k2) + 1 := by omega
    rw [h1]
    show createPlanetsFrom (i + 1) (k1 + k2) (createPlanetsStep store i)
        = createPlanetsFrom (i + (k1 + 1)) k2 (createPlanetsFrom i (k1 + 1) store)
    rw [ih k2 (i + 1) (createPlanetsStep store i)]
    have h2 : i + 1 + k1 = i + (k1 + 1) := by omega
    rw [h2]
    rfl

/-- C9: whenever `createPlanets(n)` is called while the store already holds
`L` entries with `1 ≤ L ≤ n`, the store afterwards holds `n + 1` entries
(one more than requested): the skip condition `i < planetsBuffers.length - 1`
re-creates a planet starting from slot `L - 1` and entries are only ever
appended; in particular indexing slots `0 .. n-1` after the call never goes
out of range. -/
theorem createPlanets_length_succ (n : Nat) (store : PlanetStore)
    (h1 : 1 ≤ store.planetsBuffers.length)
    (h2 : store.planetsBuffers.length ≤ n) :
    (createPlanets n store).planetsBuffers.length = n + 1 ∧
    ∀ slot < n, slot < (createPlanets n store).planetsBuffers.length := by
  have hsplit : n = (store.planetsBuffers.length - 1)
      + (n - store.planetsBuffers.length + 1) := by omega
  have hskip : createPlanetsFrom 0 (store.planetsBuffers.length - 1) store = store := by
    apply createPlanetsFrom_skip
    push_cast
    omega
  have hlen : (createPlanets n store).planetsBuffers.length = n + 1 := by
    unfold createPlanets
    rw [hsplit, createPlanetsFrom_add, hskip]
    have hpush := createPlanetsFrom_push (n - store.planetsBuffers.length + 1)
      (0 + (store.planetsBuffers.length - 1)) store (by omega)
    omega
  exact ⟨hlen, fun slot hs => by omega⟩

/-- Witness for `createPlanets_length_succ`: a store holding 2 records grown
to a requested count of 3 ends with 4 records. -/
theorem createPlanets_length_succ_witness :
    1 ≤ (PlanetStore.mk [0, 1] 2).planetsBuffers.length ∧
    (PlanetStore.mk [0, 1] 2).planetsBuffers.length ≤ 3 ∧
    ((createPlanets 3 (PlanetStore.mk [0, 1] 2)).planetsBuffers.length = 3 + 1 ∧
     ∀ slot < 3, slot < (createPlanets 3 (PlanetStore.mk [0, 1] 2)).planetsBuffers.length) :=
  ⟨by decide, by decide,
   createPlanets_length_succ 3 (PlanetStore.mk [0, 1] 2) (by decide) (by decide)⟩

/-! ## Body-count shrink/grow scenario (C7) -/

/-- Coordinate function used to run the packing loop in the scenario; its
value is irrelevant to the angle accumulators. -/
def scenarioCoord : Nat → ℚ × ℚ × ℚ := fun _ => (0, 0, 0)

/-- The angle-accumulator effect of rendering one frame at the given body
count: the `lastAngleForPlanet` component of the packing loop. -/
def scenarioAdvanceAngles (planetsCount : Nat) (angles : Nat → Nat) : Nat → Nat :=
  (packFrame scenarioCoord planetsCount angles).lastAngleForPlanet

/-- Store after the startup `createPlanets(5)` (empty store, counter 0). -/
def scenarioStore1 : PlanetStore := createPlanets 5 ⟨[], 0⟩

/-- Store after `setBodyCount(3)` triggers `createPlanets(3)`. -/
def scenarioStore2 : PlanetStore := createPlanets 3 scenarioStore1

/-- Store after `setBodyCount(5)` triggers `createPlanets(5)` again. -/
def scenarioStore3 : PlanetStore := createPlanets 5 scenarioStore2

/-- Angle accumulators after one rendered frame at body count 5. -/
def scenarioAngles1 : Nat → Nat := scenarioAdvanceAngles 5 (fun _ => 0)

/-- Angle accumulators after a further frame at body count 3. -/
def scenarioAngles2 : Nat → Nat := scenarioAdvanceAngles 3 scenarioAngles1

/-- Angle accumulators after a further frame back at body count 5. -/
def scenarioAngles3 : Nat → Nat := scenarioAdvanceAngles 5 scenarioAngles2

/-- C7 counterexample: in the `setBodyCount(5) → setBodyCount(3) →
setBodyCount(5)` scenario (with one rendered frame per stage), slots 3 and 4
are NOT re-zeroed.  The planet records of slots 3 and 4 after the sequence
are identical to the records those slots held before the shrink (`getD`
reading with sentinel 999), and slot 3's angle accumulator reads 2 — it kept
its pre-shrink value 1 and advanced once — whereas a re-zeroed slot would
read `(0 + 1) % 360 = 1`. -/
theorem bodyCountShrinkGrow_counterexample :
    scenarioStore3.planetsBuffers.getD 3 999
        = scenarioStore1.planetsBuffers.getD 3 999 ∧
    scenarioStore3.planetsBuffers.getD 4 999
        = scenarioStore1.planetsBuffers.getD 4 999 ∧
    scenarioAngles2 3 = scenarioAngles1 3 ∧
    scenarioAngles3 3 = 2 ∧
    (0 + 1) % 360 = 1 ∧
    ¬ (scenarioAngles3 3 = (0 + 1) % 360) := by decide

/-- C7 amended: after `setBodyCount(5)`, `setBodyCount(3)`, `setBodyCount(5)`
(as applied through `createPlanets`), subsequent rendering does not crash —
the store then holds 6 planet records, so every slot `0..4` is backed — but
the per-slot state of slots 3 and 4 is retained, not re-zeroed: the store
only appends (the third call pushes one fresh record after the five original
ones, so slots 3 and 4 keep the records created by the first call), and the
angle accumulators of slots 3 and 4 are untouched while the count is 3 and
then continue from their retained values. -/
theorem bodyCountShrinkGrow_amended :
    scenarioStore3.planetsBuffers.length = 6 ∧
    (∀ slot < 5, slot < scenarioStore3.planetsBuffers.length) ∧
    scenarioStore3.planetsBuffers = scenarioStore1.planetsBuffers ++ [5] ∧
    scenarioAngles2 3 = scenarioAngles1 3 ∧
    scenarioAngles2 4 = scenarioAngles1 4 ∧
    scenarioAngles3 3 = scenarioAngles2 3 + 1 ∧
    scenarioAngles3 4 = scenarioAngles2 4 + 1 := by decide

end GalaxyWebgpu
